import Mathlib

/-!
Shallow embedding of the geofence bounds check implemented in
`src/components/map/VectorMap.tsx` (the `Bounds` interface, the
`ETHIOPIA_BOUNDS` constant and the `isWithinBounds` function), together
with theorems settling the claims about it.

Every numeric literal appearing in the source is an exactly representable
decimal, so finite JavaScript numbers are modelled as rationals; NaN and
the two signed infinities are modelled explicitly because the comparison
operators of JavaScript treat them specially.
-/

/-- A JavaScript number: a finite value, NaN, or a signed infinity
(`inf true` is positive infinity, `inf false` negative infinity). -/
inductive JSNum : Type
  | fin (q : ℚ)
  | nan
  | inf (pos : Bool)
deriving DecidableEq

/-- A JavaScript value as it may reach the function at runtime despite the
static annotation `number`: a number, a string, `undefined`, `null`, or a
boolean. -/
inductive JSValue : Type
  | num (x : JSNum)
  | str (s : String)
  | undef
  | null
  | bool (b : Bool)
deriving DecidableEq

/-- The JavaScript `<=` operator on numbers: false whenever either operand
is NaN, and with the usual ordering of the infinities otherwise. -/
def JSNum.le : JSNum → JSNum → Bool
  | .nan, _ => false
  | _, .nan => false
  | .fin a, .fin b => decide (a ≤ b)
  | .inf p, .fin _ => !p
  | .fin _, .inf p => p
  | .inf p, .inf q => !p || q

/-- The JavaScript `>=` operator on numbers: `a >= b` holds exactly when
`b <= a`, and both are false whenever an operand is NaN. -/
def JSNum.ge (a b : JSNum) : Bool := JSNum.le b a

/-- The JavaScript `<` operator on numbers: false whenever either operand
is NaN. -/
def JSNum.lt : JSNum → JSNum → Bool
  | .nan, _ => false
  | _, .nan => false
  | .fin a, .fin b => decide (a < b)
  | .inf p, .fin _ => !p
  | .fin _, .inf p => p
  | .inf p, .inf q => !p && q

/-- The `typeof v === number` test used by the guard. -/
def JSValue.isNumber : JSValue → Bool
  | .num _ => true
  | _ => false

/-- The `Bounds` interface of VectorMap.tsx: four numeric boundaries. -/
structure Bounds : Type where
  north : JSNum
  south : JSNum
  east : JSNum
  west : JSNum
deriving DecidableEq

/-- The `ETHIOPIA_BOUNDS` constant of VectorMap.tsx:
north 15.0, south 3.5, east 48.0, west 33.0. -/
def ETHIOPIA_BOUNDS : Bounds :=
  ⟨.fin 15, .fin (7 / 2), .fin 48, .fin 33⟩

/-- The body of `isWithinBounds(lat, lng, bounds)` from VectorMap.tsx with
the bounds argument supplied explicitly: if the typeof guard rejects either
coordinate the result is false (the catch-all branch), otherwise the result
is `lat >= bounds.south && lat <= bounds.north && lng >= bounds.west &&
lng <= bounds.east`. -/
def isWithinBounds (lat lng : JSValue) (bounds : Bounds) : Bool :=
  match lat, lng with
  | .num a, .num b =>
      JSNum.ge a bounds.south && JSNum.le a bounds.north &&
      JSNum.ge b bounds.west && JSNum.le b bounds.east
  | _, _ => false

/-- The two-argument form of the call, in which the optional `bounds`
parameter takes its declared default value `ETHIOPIA_BOUNDS`. -/
def isWithinBoundsDefault (lat lng : JSValue) : Bool :=
  isWithinBounds lat lng ETHIOPIA_BOUNDS

/-- Claim C1: for numeric coordinates and numeric bounds, `isWithinBounds`
returns true iff the latitude lies within [south, north] inclusive and the
longitude lies within [west, east] inclusive. -/
theorem c1_isWithinBounds_iff_inside (la ln n s e w : ℚ) :
    isWithinBounds (.num (.fin la)) (.num (.fin ln)) ⟨.fin n, .fin s, .fin e, .fin w⟩ = true ↔
      (s ≤ la ∧ la ≤ n) ∧ (w ≤ ln ∧ ln ≤ e) := by
  simp [isWithinBounds, JSNum.ge, JSNum.le, and_assoc]

/-- Claim C2: coordinates lying exactly on a boundary are inside; for a
non-degenerate numeric bounds record, a latitude equal to north or south
with the longitude inside [west, east], or a longitude equal to west or
east with the latitude inside [south, north], yields true. -/
theorem c2_boundary_inclusive (n s e w la ln : ℚ)
    (hsn : s ≤ n) (hwe : w ≤ e)
    (hw : w ≤ ln) (he : ln ≤ e) (hs : s ≤ la) (hn : la ≤ n) :
    isWithinBounds (.num (.fin n)) (.num (.fin ln)) ⟨.fin n, .fin s, .fin e, .fin w⟩ = true ∧
    isWithinBounds (.num (.fin s)) (.num (.fin ln)) ⟨.fin n, .fin s, .fin e, .fin w⟩ = true ∧
    isWithinBounds (.num (.fin la)) (.num (.fin w)) ⟨.fin n, .fin s, .fin e, .fin w⟩ = true ∧
    isWithinBounds (.num (.fin la)) (.num (.fin e)) ⟨.fin n, .fin s, .fin e, .fin w⟩ = true := by
  refine ⟨?_, ?_, ?_, ?_⟩ <;>
    simp [isWithinBounds, JSNum.ge, JSNum.le] <;> constructor <;> first | assumption | constructor <;> assumption

/-- Witness for claim C2, at the default boundaries with an interior
coordinate on each side. -/
theorem c2_boundary_inclusive_witness :
    isWithinBounds (.num (.fin 15)) (.num (.fin 40)) ⟨.fin 15, .fin (7 / 2), .fin 48, .fin 33⟩ = true ∧
    isWithinBounds (.num (.fin (7 / 2))) (.num (.fin 40)) ⟨.fin 15, .fin (7 / 2), .fin 48, .fin 33⟩ = true ∧
    isWithinBounds (.num (.fin 9)) (.num (.fin 33)) ⟨.fin 15, .fin (7 / 2), .fin 48, .fin 33⟩ = true ∧
    isWithinBounds (.num (.fin 9)) (.num (.fin 48)) ⟨.fin 15, .fin (7 / 2), .fin 48, .fin 33⟩ = true :=
  c2_boundary_inclusive 15 (7 / 2) 48 33 9 40 (by norm_num) (by norm_num)
    (by norm_num) (by norm_num) (by norm_num) (by norm_num)

/-- Claim C3: when either coordinate fails the typeof guard (a string,
undefined, null, a boolean), `isWithinBounds` returns false for any bounds
rather than raising an error; the result is the same boolean `false` as for
an out-of-region point. -/
theorem c3_nonnumeric_returns_false (lat lng : JSValue) (b : Bounds)
    (h : lat.isNumber = false ∨ lng.isNumber = false) :
    isWithinBounds lat lng b = false := by
  cases lat <;> cases lng <;> simp_all [isWithinBounds, JSValue.isNumber]

/-- Witness for claim C3: the string value "9" as latitude yields false
under the default bounds. -/
theorem c3_nonnumeric_returns_false_witness :
    isWithinBounds (.str "9") (.num (.fin 40)) ETHIOPIA_BOUNDS = false :=
  c3_nonnumeric_returns_false (.str "9") (.num (.fin 40)) ETHIOPIA_BOUNDS (Or.inl rfl)

/-- Claim C4: the five concrete evaluations under the default bounds. -/
theorem c4_concrete_scenarios :
    isWithinBoundsDefault (.num (.fin 9)) (.num (.fin 40)) = true ∧
    isWithinBoundsDefault (.num (.fin 9)) (.num (.fin 50)) = false ∧
    isWithinBoundsDefault (.num (.fin (7 / 2))) (.num (.fin 40)) = true ∧
    isWithinBoundsDefault (.num (.fin 2)) (.num (.fin 40)) = false ∧
    isWithinBoundsDefault (.str "9") (.num (.fin 40)) = false := by
  refine ⟨?_, ?_, ?_, ?_, ?_⟩ <;>
    simp [isWithinBoundsDefault, isWithinBounds, ETHIOPIA_BOUNDS, JSNum.ge, JSNum.le] <;>
    norm_num

/-- Claim C5: the default for the optional bounds parameter is the
constant `ETHIOPIA_BOUNDS` with north 15.0, south 3.5, east 48.0 and
west 33.0, so the two-argument call agrees with the three-argument call at
`ETHIOPIA_BOUNDS` on every input. -/
theorem c5_default_is_ethiopia_bounds :
    ETHIOPIA_BOUNDS = ⟨.fin 15, .fin (7 / 2), .fin 48, .fin 33⟩ ∧
    ∀ lat lng : JSValue, isWithinBoundsDefault lat lng = isWithinBounds lat lng ETHIOPIA_BOUNDS :=
  ⟨rfl, fun _ _ => rfl⟩

/-- Claim C6: custom bounds override the default; the coordinate
(20, 40) lies outside the default rectangle (north of it) but inside the
custom rectangle with north 25, south 18, east 45, west 35. -/
theorem c6_custom_bounds_override :
    isWithinBoundsDefault (.num (.fin 20)) (.num (.fin 40)) = false ∧
    isWithinBounds (.num (.fin 20)) (.num (.fin 40)) ⟨.fin 25, .fin 18, .fin 45, .fin 35⟩ = true := by
  refine ⟨?_, ?_⟩ <;>
    simp [isWithinBoundsDefault, isWithinBounds, ETHIOPIA_BOUNDS, JSNum.ge, JSNum.le] <;>
    norm_num

/-- Claim C7: `isWithinBounds` is total and deterministic: on every input,
including NaN or infinite coordinates, non-numeric values and arbitrary
bounds, it returns one of the two booleans, and equal arguments give equal
results. -/
theorem c7_total_deterministic :
    (∀ (lat lng : JSValue) (b : Bounds),
      isWithinBounds lat lng b = true ∨ isWithinBounds lat lng b = false) ∧
    (∀ (lat₁ lng₁ : JSValue) (b₁ : Bounds) (lat₂ lng₂ : JSValue) (b₂ : Bounds),
      lat₁ = lat₂ → lng₁ = lng₂ → b₁ = b₂ →
      isWithinBounds lat₁ lng₁ b₁ = isWithinBounds lat₂ lng₂ b₂) := by
  constructor
  · intro lat lng b
    rcases Bool.eq_false_or_eq_true (isWithinBounds lat lng b) with h | h
    · exact Or.inl h
    · exact Or.inr h
  · intro lat₁ lng₁ b₁ lat₂ lng₂ b₂ h1 h2 h3
    rw [h1, h2, h3]

/-- Witness for claim C7, applied at a NaN latitude under the default
bounds. -/
theorem c7_total_deterministic_witness :
    (isWithinBounds (.num .nan) (.num (.fin 40)) ETHIOPIA_BOUNDS = true ∨
      isWithinBounds (.num .nan) (.num (.fin 40)) ETHIOPIA_BOUNDS = false) ∧
    isWithinBounds (.num .nan) (.num (.fin 40)) ETHIOPIA_BOUNDS =
      isWithinBounds (.num .nan) (.num (.fin 40)) ETHIOPIA_BOUNDS :=
  ⟨c7_total_deterministic.1 (.num .nan) (.num (.fin 40)) ETHIOPIA_BOUNDS,
    c7_total_deterministic.2 (.num .nan) (.num (.fin 40)) ETHIOPIA_BOUNDS
      (.num .nan) (.num (.fin 40)) ETHIOPIA_BOUNDS rfl rfl rfl⟩

/-- Claim C8: the default constant satisfies the documented invariant on
`Bounds`: its south 3.5 is strictly below its north 15.0 and its west 33.0
is strictly below its east 48.0, under the JavaScript ordering. -/
theorem c8_default_bounds_nondegenerate :
    JSNum.lt ETHIOPIA_BOUNDS.south ETHIOPIA_BOUNDS.north = true ∧
    JSNum.lt ETHIOPIA_BOUNDS.west ETHIOPIA_BOUNDS.east = true := by
  refine ⟨?_, ?_⟩ <;> simp [JSNum.lt, ETHIOPIA_BOUNDS] <;> norm_num

/-- For finite bounds endpoints in the wrong order, no JavaScript number
passes both the lower and the upper comparison of one axis. -/
theorem jsnum_band_empty (lo hi : ℚ) (hlt : hi < lo) (a : JSNum) :
    (JSNum.ge a (.fin lo) && JSNum.le a (.fin hi)) = false := by
  cases a with
  | fin q =>
    simp [JSNum.ge, JSNum.le]
    intro h
    linarith
  | nan => rfl
  | inf p => cases p <;> rfl

/-- Claim C9: a bounds record violating the invariant (north below south,
or east below west, as finite numbers) describes the empty region:
`isWithinBounds` returns false, normally, for every latitude and every
longitude, numeric or not. -/
theorem c9_degenerate_bounds_empty (n s e w : ℚ) (hdeg : n < s ∨ e < w) :
    ∀ lat lng : JSValue,
      isWithinBounds lat lng ⟨.fin n, .fin s, .fin e, .fin w⟩ = false := by
  intro lat lng
  cases lat with
  | num a =>
    cases lng with
    | num b =>
      show (JSNum.ge a (.fin s) && JSNum.le a (.fin n) &&
        JSNum.ge b (.fin w) && JSNum.le b (.fin e)) = false
      rcases hdeg with hdeg | hdeg
      · have h := jsnum_band_empty s n hdeg a
        simp [h]
      · have h := jsnum_band_empty w e hdeg b
        simp [Bool.and_assoc, h]
    | str m => rfl
    | undef => rfl
    | null => rfl
    | bool c => rfl
  | str m => cases lng <;> rfl
  | undef => cases lng <;> rfl
  | null => cases lng <;> rfl
  | bool c => cases lng <;> rfl

/-- Witness for claim C9: with north 3 below south 10 the point (5, 40)
is rejected. -/
theorem c9_degenerate_bounds_empty_witness :
    isWithinBounds (.num (.fin 5)) (.num (.fin 40)) ⟨.fin 3, .fin 10, .fin 48, .fin 33⟩ = false :=
  c9_degenerate_bounds_empty 3 10 48 33 (Or.inl (by norm_num))
    (.num (.fin 5)) (.num (.fin 40))

/-- Claim C10: `isWithinBounds` is monotone in the bounds argument: if a
finite rectangle b1 is contained in a finite rectangle b2, every value pair
accepted under b1 is accepted under b2. -/
theorem c10_monotone_in_bounds (n₁ s₁ e₁ w₁ n₂ s₂ e₂ w₂ : ℚ)
    (hs : s₂ ≤ s₁) (hn : n₁ ≤ n₂) (hw : w₂ ≤ w₁) (he : e₁ ≤ e₂)
    (lat lng : JSValue)
    (h : isWithinBounds lat lng ⟨.fin n₁, .fin s₁, .fin e₁, .fin w₁⟩ = true) :
    isWithinBounds lat lng ⟨.fin n₂, .fin s₂, .fin e₂, .fin w₂⟩ = true := by
  cases lat with
  | num a =>
    cases lng with
    | num b =>
      cases a with
      | fin la =>
        cases b with
        | fin ln =>
          simp only [isWithinBounds, JSNum.ge, JSNum.le, Bool.and_eq_true,
            decide_eq_true_eq] at h ⊢
          obtain ⟨⟨⟨h1, h2⟩, h3⟩, h4⟩ := h
          exact ⟨⟨⟨by linarith, by linarith⟩, by linarith⟩, by linarith⟩
        | nan => simp [isWithinBounds, JSNum.ge, JSNum.le] at h
        | inf p => cases p <;> simp [isWithinBounds, JSNum.ge, JSNum.le] at h
      | nan => simp [isWithinBounds, JSNum.ge, JSNum.le] at h
      | inf p => cases p <;> simp [isWithinBounds, JSNum.ge, JSNum.le] at h
    | str m => exact absurd h (by simp [isWithinBounds])
    | undef => exact absurd h (by simp [isWithinBounds])
    | null => exact absurd h (by simp [isWithinBounds])
    | bool c => exact absurd h (by simp [isWithinBounds])
  | str m => exact absurd h (by simp [isWithinBounds])
  | undef => exact absurd h (by simp [isWithinBounds])
  | null => exact absurd h (by simp [isWithinBounds])
  | bool c => exact absurd h (by simp [isWithinBounds])

/-- Witness for claim C10: the point (9, 40), inside the default rectangle,
stays inside the enlarged rectangle with north 20, south 0, east 50,
west 30. -/
theorem c10_monotone_in_bounds_witness :
    isWithinBounds (.num (.fin 9)) (.num (.fin 40)) ⟨.fin 20, .fin 0, .fin 50, .fin 30⟩ = true :=
  c10_monotone_in_bounds 15 (7 / 2) 48 33 20 0 50 30
    (by norm_num) (by norm_num) (by norm_num) (by norm_num)
    (.num (.fin 9)) (.num (.fin 40))
    (by simp [isWithinBounds, JSNum.ge, JSNum.le]; norm_num)
